import Mathlib

/-!
Shallow embedding of the chowkidar cookie-based JWT authentication library
(`chowkidar/utils/jwt.py`, `chowkidar/extension.py`, `chowkidar/view.py`,
`chowkidar/wrappers.py`, `chowkidar/models.py`, `chowkidar/graphql/schema.py`,
`chowkidar/settings.py`), together with theorems settling the frozen claims.

Conventions of the embedding:
* timestamps and timedeltas are `Nat` seconds (Django datetimes are totally
  ordered; only comparisons and additions of deltas occur in the modelled code,
  and `a - b ≤ c ↔ a ≤ c + b` holds for truncated `Nat` subtraction exactly as
  for real subtraction when values are non-negative);
* a Python dict of JWT claims is an association list with first-match lookup
  (well-formed payloads have distinct keys);
* a JWT wire string is modelled by the inductive `JwtString`: constructor
  `jwt payload key` stands for the compact serialization signed with `key`,
  constructor `raw s` stands for any other cookie string (for example a bare
  hex secret).  Two distinct constructors compare unequal, which models the
  fact that a compact JWT serialization (which contains two dots) is never
  textually equal to a hex token secret.
-/

set_option linter.unusedVariables false

namespace Chowkidar

/-- A JSON-ish claim value carried inside a JWT payload. -/
inductive JValue where
  | nat : Nat → JValue
  | str : String → JValue
deriving DecidableEq, Repr

/-- A JWT payload: a Python dict of claim name to value. -/
abbrev Payload := List (String × JValue)

/-- Python dict lookup (first matching key; dicts have unique keys). -/
def dictLookup (d : Payload) (k : String) : Option JValue :=
  (d.find? (fun p => p.1 == k)).map (fun p => p.2)

/-- Python `d.update(u)`: keys of `u` override keys of `d`. -/
def dictUpdate (d u : Payload) : Payload :=
  d.filter (fun p => !(u.any (fun q => q.1 == p.1))) ++ u

/-- A cookie/wire string: either a compact JWT serialization or a plain string. -/
inductive JwtString where
  | jwt : Payload → String → JwtString
  | raw : String → JwtString
deriving DecidableEq, Repr

/-- Python truthiness of a cookie value (`COOKIES[name]` in boolean context). -/
def JwtString.truthy : JwtString → Bool
  | .jwt _ _ => true
  | .raw s => !(s == "")

/-- Errors raised by the modelled `jwt` library (`PyJWT`). -/
inductive JwtError where
  | expiredSignature : JwtError
  | invalidToken : JwtError
deriving DecidableEq, Repr

/-- `chowkidar.utils.exceptions.AuthError`. -/
structure AuthErr where
  message : String
  code : String
deriving DecidableEq, Repr

/-- `chowkidar/settings.py`: the deployment-configurable knobs used by the
modelled code. -/
structure Settings where
  JWT_SECRET_KEY : String
  JWT_PUBLIC_KEY : Option String
  JWT_PRIVATE_KEY : Option String
  JWT_LEEWAY : Nat
  JWT_ISSUER : Option String
  JWT_ACCESS_TOKEN_EXPIRATION_DELTA : Nat
  JWT_REFRESH_TOKEN_EXPIRATION_DELTA : Nat
  JWT_REFRESH_TOKEN_N_BYTES : Nat
  JWT_ACCESS_TOKEN_COOKIE_NAME : String
  JWT_REFRESH_TOKEN_COOKIE_NAME : String
deriving DecidableEq, Repr

/-- The library defaults from `chowkidar/settings.py` (the secret key itself
comes from the Django site configuration; a stand-in literal is used). -/
def defaultSettings : Settings where
  JWT_SECRET_KEY := "django-site-secret"
  JWT_PUBLIC_KEY := none
  JWT_PRIVATE_KEY := none
  JWT_LEEWAY := 0
  JWT_ISSUER := none
  JWT_ACCESS_TOKEN_EXPIRATION_DELTA := 60
  JWT_REFRESH_TOKEN_EXPIRATION_DELTA := 60 * 60 * 24 * 7
  JWT_REFRESH_TOKEN_N_BYTES := 20
  JWT_ACCESS_TOKEN_COOKIE_NAME := "JWT_ACCESS_TOKEN"
  JWT_REFRESH_TOKEN_COOKIE_NAME := "JWT_REFRESH_TOKEN"

/-- Keyword-argument lookup with default, modelling how Python passes extra
keyword arguments: an argument whose name is not the declared parameter name
lands in `**kwargs` and is ignored by `PyJWT`, so the declared parameter keeps
its default. -/
def kwargs_get (kwargs : List (String × Nat)) (name : String) (default : Nat) : Nat :=
  match kwargs.find? (fun p => p.1 == name) with
  | some p => p.2
  | none => default

/-- Model of `jwt.decode` from `PyJWT`: verifies the signature (here: the key
the token was signed with must equal the verification key), requires numeric
`iat` and `exp` claims, rejects the token as expired when `exp + leeway < now`,
and verifies the `iss` claim when an issuer is configured.  The effective
leeway is read from the keyword arguments under the name `leeway`. -/
def jwt_decode (tok : JwtString) (key : String) (kwargs : List (String × Nat))
    (issuer : Option String) (now : Nat) : Except JwtError Payload :=
  match tok with
  | .raw _ => .error .invalidToken
  | .jwt payload sigKey =>
    if sigKey == key then
      let leeway := kwargs_get kwargs "leeway" 0
      match dictLookup payload "iat", dictLookup payload "exp" with
      | some (.nat _), some (.nat exp) =>
        if exp + leeway < now then .error .expiredSignature
        else
          match issuer with
          | some iss =>
            if dictLookup payload "iss" = some (.str iss) then .ok payload
            else .error .invalidToken
          | none => .ok payload
      | _, _ => .error .invalidToken
    else .error .invalidToken

/-- `chowkidar/utils/jwt.py` `encode_payload`: signs with the private key or,
absent one, the symmetric secret key. -/
def encode_payload (cfg : Settings) (payload : Payload) : JwtString :=
  .jwt payload (cfg.JWT_PRIVATE_KEY.getD cfg.JWT_SECRET_KEY)

/-- `chowkidar/utils/jwt.py` `decode_token`.  The source passes the leeway
under the misspelled keyword `leeyway`, faithfully reproduced here: `PyJWT`
therefore never sees it and validates expiry with its default leeway of 0. -/
def decode_token (cfg : Settings) (token : JwtString) (now : Nat) : Except JwtError Payload :=
  jwt_decode token (cfg.JWT_PUBLIC_KEY.getD cfg.JWT_SECRET_KEY)
    [("leeyway", cfg.JWT_LEEWAY)] cfg.JWT_ISSUER now

/-- Result of `generate_token_from_claims`: the signed token and its payload. -/
structure TokenData where
  token : JwtString
  payload : Payload
deriving DecidableEq, Repr

/-- `chowkidar/utils/jwt.py` `generate_token_from_claims`: the payload is the
claims dict updated with the registered claims `iat`, `exp` and, when an
issuer is configured, `iss`. -/
def generate_token_from_claims (cfg : Settings) (claims : Payload)
    (expiration_delta : Nat) (now : Nat) : TokenData :=
  let registered_claims : Payload :=
    match cfg.JWT_ISSUER with
    | some iss => [("iat", .nat now), ("exp", .nat (now + expiration_delta)), ("iss", .str iss)]
    | none => [("iat", .nat now), ("exp", .nat (now + expiration_delta))]
  let payload := dictUpdate claims registered_claims
  { token := encode_payload cfg payload, payload := payload }

/-- `chowkidar/utils/jwt.py` `decode_payload_from_token`: converts the two
`PyJWT` failure modes into the library's `AuthError` codes. -/
def decode_payload_from_token (cfg : Settings) (token : JwtString) (now : Nat) :
    Except AuthErr Payload :=
  match decode_token cfg token now with
  | .ok p => .ok p
  | .error .expiredSignature => .error ⟨"JWT Token expired", "EXPIRED_TOKEN"⟩
  | .error .invalidToken => .error ⟨"Invalid authentication token", "INVALID_TOKEN"⟩

/-- `chowkidar/models.py` `AbstractRefreshToken`: one persisted refresh-token
row (`ip`/`userAgent` provenance columns are never read by the modelled
operations and are omitted). -/
structure RefreshTokenRow where
  id : Nat
  user_id : Nat
  token : String
  issued : Nat
  revoked : Option Nat
deriving DecidableEq, Repr

/-- `AbstractRefreshToken.get_token`: the cached secret equals the stored
column value once the row is saved, so both branches return `token`. -/
def RefreshTokenRow.get_token (r : RefreshTokenRow) : String := r.token

/-- The refresh-token table. -/
structure Store where
  rows : List RefreshTokenRow
deriving DecidableEq, Repr

/-- An incoming HTTP request: its cookie jar. -/
structure Request where
  COOKIES : List (String × JwtString)
deriving DecidableEq, Repr

/-- `JWTAuthExtension.is_cookie_in_request`: the cookie exists and its value is
truthy. -/
def is_cookie_in_request (req : Request) (cookie_name : String) : Bool :=
  match req.COOKIES.find? (fun c => c.1 == cookie_name) with
  | some c => c.2.truthy
  | none => false

/-- Raw value of a cookie, when present. -/
def cookie_value (req : Request) (cookie_name : String) : Option JwtString :=
  (req.COOKIES.find? (fun c => c.1 == cookie_name)).map (fun c => c.2)

/-- `JWTAuthExtension._get_token_payload_from_cookie`: decode the cookie's
token, mapping any `AuthError` (expiry included) to `None`. -/
def _get_token_payload_from_cookie (cfg : Settings) (req : Request)
    (cookie_name : String) (now : Nat) : Option Payload :=
  if is_cookie_in_request req cookie_name then
    match cookie_value req cookie_name with
    | some tok => (decode_payload_from_token cfg tok now).toOption
    | none => none
  else none

/-- The filtered queryset of
`RefreshToken.objects.get(token=…, revoked__isnull=True, issued__gte=now - delta)`:
`issued ≥ now - delta` is the source's expiry condition. -/
def refresh_query (store : Store) (secret : String) (now delta : Nat) :
    List RefreshTokenRow :=
  store.rows.filter (fun q =>
    decide (q.token = secret) &&
      (decide (q.revoked = none) && decide (now - delta ≤ q.issued)))

/-- Django `objects.get` on a queryset: the unique match, or `DoesNotExist`
(= `none`).  Under the store invariant of at most one active row per secret
the multiple-match exception cannot fire; it is modelled as no result. -/
def objects_get (l : List RefreshTokenRow) : Option RefreshTokenRow :=
  match l with
  | [r] => some r
  | _ => none

/-- Result of `_get_refresh_token_object`: the row found, plus whether the
method flagged `_remove_auth_cookies` on `DoesNotExist`. -/
structure GetRTResult where
  obj : Option RefreshTokenRow
  remove_auth_cookies : Bool
deriving DecidableEq, Repr

/-- `JWTAuthExtension._get_refresh_token_object`. -/
def _get_refresh_token_object (cfg : Settings) (store : Store)
    (refreshToken : Option String) (now : Nat) : GetRTResult :=
  match refreshToken with
  | none => ⟨none, false⟩
  | some secret =>
    match objects_get (refresh_query store secret now cfg.JWT_REFRESH_TOKEN_EXPIRATION_DELTA) with
    | some r => ⟨some r, false⟩
    | none => ⟨none, true⟩

/-- The extension's per-request state after `on_request_start`
(`_init_request_state` fields). -/
structure ExtState where
  userID : Option Nat
  refreshToken : Option String
  refreshTokenObj : Option RefreshTokenRow
  new_JWT_access_token : Option TokenData
  remove_auth_cookies : Bool
deriving DecidableEq, Repr

/-- Database effects performed during `on_request_start`: reads of the
refresh-token table, and `user.save()` calls (the last-login touch). -/
structure Effects where
  refresh_store_reads : Nat
  user_saves : Nat
deriving DecidableEq, Repr

/-- `payload["userID"]` (tokens minted by this library always carry a numeric
`userID`; a payload without one yields no identity). -/
def payload_userID (p : Payload) : Option Nat :=
  match dictLookup p "userID" with
  | some (.nat n) => some n
  | _ => none

/-- `payload["refreshToken"]` of the refresh-cookie wrapper payload. -/
def payload_refreshToken (p : Payload) : Option String :=
  match dictLookup p "refreshToken" with
  | some (.str s) => some s
  | _ => none

/-- `JWTAuthExtension.on_request_start`, returning the extension state and the
database effects.  The refresh-token table itself is never written here: the
only write on the renewal path is the owner's `last_login` touch, counted in
`user_saves`. -/
def on_request_start (cfg : Settings) (store : Store) (req : Request) (now : Nat) :
    ExtState × Effects :=
  let access_token_payload :=
    _get_token_payload_from_cookie cfg req cfg.JWT_ACCESS_TOKEN_COOKIE_NAME now
  let refresh_token_payload :=
    _get_token_payload_from_cookie cfg req cfg.JWT_REFRESH_TOKEN_COOKIE_NAME now
  let rt0 : Option String :=
    match refresh_token_payload with
    | some p => payload_refreshToken p
    | none => none
  match access_token_payload with
  | some p =>
    ({ userID := payload_userID p, refreshToken := rt0, refreshTokenObj := none,
       new_JWT_access_token := none, remove_auth_cookies := false },
     { refresh_store_reads := 0, user_saves := 0 })
  | none =>
    match refresh_token_payload with
    | some _ =>
      let res := _get_refresh_token_object cfg store rt0 now
      match res.obj with
      | some rowObj =>
        let tok := generate_token_from_claims cfg
          [("userID", .nat rowObj.user_id), ("origIat", .nat rowObj.issued)]
          cfg.JWT_ACCESS_TOKEN_EXPIRATION_DELTA now
        ({ userID := some rowObj.user_id, refreshToken := some rowObj.token,
           refreshTokenObj := some rowObj, new_JWT_access_token := some tok,
           remove_auth_cookies := res.remove_auth_cookies },
         { refresh_store_reads := 1, user_saves := 1 })
      | none =>
        ({ userID := none, refreshToken := rt0, refreshTokenObj := none,
           new_JWT_access_token := none, remove_auth_cookies := res.remove_auth_cookies },
         { refresh_store_reads := 1, user_saves := 0 })
    | none =>
      let rm := is_cookie_in_request req cfg.JWT_ACCESS_TOKEN_COOKIE_NAME ||
        is_cookie_in_request req cfg.JWT_REFRESH_TOKEN_COOKIE_NAME
      ({ userID := none, refreshToken := rt0, refreshTokenObj := none,
         new_JWT_access_token := none, remove_auth_cookies := rm },
       { refresh_store_reads := 0, user_saves := 0 })

/-- The dynamic attributes stashed on the request object to communicate from
resolution time (`extension.py`, `wrappers.py`) to response-finalization time
(`view.py`).  All start unset. -/
structure RequestAttrs where
  REFRESHED_ACCESS_TOKEN : Option TokenData := none
  PERFORM_LOGOUT : Bool := false
  PERFORM_LOGIN : Bool := false
  NEW_JWT_TOKEN : Option TokenData := none
  NEW_REFRESH_TOKEN : Option RefreshTokenRow := none
  REMOVE_JWT_TOKEN : Bool := false
  REMOVE_REFRESH_TOKEN : Bool := false
deriving DecidableEq, Repr

/-- Fresh request: no attribute set. -/
def initAttrs : RequestAttrs := {}

/-- The attribute writes of `JWTAuthExtension.resolve`: publishes the renewed
access token under `REFRESHED_ACCESS_TOKEN`, else flags `PERFORM_LOGOUT` when
the auth cookies are to be removed. -/
def extension_resolve (st : ExtState) (attrs : RequestAttrs) : RequestAttrs :=
  match st.new_JWT_access_token with
  | some tok => { attrs with REFRESHED_ACCESS_TOKEN := some tok }
  | none =>
    if st.remove_auth_cookies then { attrs with PERFORM_LOGOUT := true }
    else attrs

/-- A response-side cookie mutation. -/
inductive CookieAction where
  | set : String → JwtString → Nat → CookieAction
  | del : String → CookieAction
deriving DecidableEq, Repr

/-- The outgoing response, as its list of cookie mutations. -/
abbrev Response := List CookieAction

/-- `chowkidar/utils/cookie.py` `set_cookie`. -/
def set_cookie (name : String) (value : JwtString) (expires : Nat)
    (response : Response) : Response :=
  response ++ [.set name value expires]

/-- `chowkidar/utils/cookie.py` `delete_cookie`. -/
def delete_cookie (response : Response) (name : String) : Response :=
  response ++ [.del name]

/-- `data["payload"]["exp"]` as a cookie expiry. -/
def payload_exp (p : Payload) : Nat :=
  match dictLookup p "exp" with
  | some (.nat n) => n
  | _ => 0

/-- `chowkidar/view.py` `auth_enabled_view.finish_response`: the four
post-processing checks, reading the attributes `NEW_JWT_TOKEN`,
`NEW_REFRESH_TOKEN`, `REMOVE_JWT_TOKEN` and `REMOVE_REFRESH_TOKEN` in that
order. -/
def finish_response (cfg : Settings) (attrs : RequestAttrs) (response : Response)
    (now : Nat) : Response :=
  let r1 :=
    match attrs.NEW_JWT_TOKEN with
    | some data =>
      set_cookie cfg.JWT_ACCESS_TOKEN_COOKIE_NAME data.token (payload_exp data.payload) response
    | none => response
  let r2 :=
    match attrs.NEW_REFRESH_TOKEN with
    | some rt =>
      let data := generate_token_from_claims cfg [("refreshToken", .str rt.get_token)]
        cfg.JWT_REFRESH_TOKEN_EXPIRATION_DELTA now
      set_cookie cfg.JWT_REFRESH_TOKEN_COOKIE_NAME data.token (payload_exp data.payload) r1
    | none => r1
  let r3 := if attrs.REMOVE_JWT_TOKEN then delete_cookie r2 cfg.JWT_ACCESS_TOKEN_COOKIE_NAME else r2
  let r4 := if attrs.REMOVE_REFRESH_TOKEN then delete_cookie r3 cfg.JWT_REFRESH_TOKEN_COOKIE_NAME else r3
  r4

/-- `chowkidar/wrappers.py` `revoke_tokens_on_logout` (the post-resolver part):
when `LOGOUT_USER` is signalled and both `info.context.userID` and
`info.context.refreshToken` are truthy (Python truthiness: `0` and `""` are
falsy), every row of the matching `(token, user_id)` pair gets
`revoked = now` — with no `revoked__isnull` guard — and `PERFORM_LOGOUT` is
set on the request. -/
def revoke_tokens_on_logout (store : Store) (ctxUserID : Option Nat)
    (ctxRefreshToken : Option String) (logout_user : Bool)
    (attrs : RequestAttrs) (now : Nat) : Store × RequestAttrs :=
  if logout_user then
    let store' :=
      match ctxUserID, ctxRefreshToken with
      | some uid, some secret =>
        if uid ≠ 0 ∧ secret ≠ "" then
          { rows := store.rows.map (fun r =>
              if r.token = secret ∧ r.user_id = uid then { r with revoked := some now } else r) }
        else store
      | _, _ => store
    (store', { attrs with PERFORM_LOGOUT := true })
  else (store, attrs)

/-- Two hex digits of one byte (`binascii.hexlify`). -/
def hexDigit (n : Nat) : Char :=
  if n < 10 then Char.ofNat (48 + n) else Char.ofNat (87 + n)

/-- Hex encoding of one byte. -/
def hexByte (b : Nat) : String :=
  String.mk [hexDigit (b / 16 % 16), hexDigit (b % 16)]

/-- `AbstractRefreshToken.generate_token`:
`hexlify(urandom(JWT_REFRESH_TOKEN_N_BYTES)).decode()`.  The random draw is
passed in as the byte list `randomBytes` (of length
`JWT_REFRESH_TOKEN_N_BYTES`). -/
def generate_token : List Nat → String
  | [] => ""
  | b :: bs => hexByte b ++ generate_token bs

/-- A refresh-token instance before `save`: `token = ""` means not yet set. -/
structure PendingRow where
  user_id : Nat
  token : String
  revoked : Option Nat
deriving DecidableEq, Repr

/-- `AbstractRefreshToken.save`: fills the token secret from a single call to
`generate_token` when unset, then inserts the row.  The `Meta.unique_together`
constraint on `(token, revoked)` — which the model's comment states "ensures
uniqueness of non-revoked tokens (since revoked=null)" — makes a colliding
insert fail with an integrity error; there is no retry loop. -/
def save (cfg : Settings) (store : Store) (row : PendingRow)
    (randomBytes : List Nat) (now newId : Nat) : Except String Store :=
  let tokenVal := if row.token = "" then generate_token randomBytes else row.token
  if store.rows.any (fun r => decide (r.token = tokenVal) && decide (r.revoked = row.revoked)) then
    .error "IntegrityError"
  else
    .ok { rows := store.rows ++
      [{ id := newId, user_id := row.user_id, token := tokenVal, issued := now,
         revoked := row.revoked }] }

/-- `chowkidar/wrappers.py` `issue_tokens_on_login.generate_refresh_token`:
`RefreshToken(user_id=userID)` followed by `token.save()`, returning the saved
row. -/
def generate_refresh_token (cfg : Settings) (store : Store) (userID : Nat)
    (randomBytes : List Nat) (now newId : Nat) :
    Except String (Store × RefreshTokenRow) :=
  match save cfg store { user_id := userID, token := "", revoked := none } randomBytes now newId with
  | .ok store' =>
    .ok (store', { id := newId, user_id := userID, token := generate_token randomBytes,
                   issued := now, revoked := none })
  | .error e => .error e

/-- `chowkidar/graphql/schema.py` `revoke_other_tokens`: revokes every active
row of the user whose stored secret is not string-equal to the raw value of
the request's `JWT_REFRESH_TOKEN` cookie (the cookie name is hardcoded in the
source).  Note the comparison is against the cookie's wire string itself. -/
def revoke_other_tokens (store : Store) (userID : Nat)
    (cookies : List (String × JwtString)) (now : Nat) : Store :=
  let refreshToken : Option JwtString :=
    (cookies.find? (fun c => c.1 == "JWT_REFRESH_TOKEN")).map (fun c => c.2)
  { rows := store.rows.map (fun r =>
      if r.user_id = userID ∧ r.revoked = none ∧ refreshToken ≠ some (.raw r.token)
      then { r with revoked := some now } else r) }

/-- Modelled from the spec: `verify_refresh_token` lives in the `auth.verify`
module, which is not among the sources (only its caller
`SetRefreshToken.mutate` is).  Per spec §4.2 `findActive`, it returns the
stored row for the secret only if it is not revoked and its issue time is
within the refresh-token TTL, and fails with an `AuthError` otherwise. -/
def verify_refresh_token (cfg : Settings) (store : Store) (token : String)
    (now : Nat) : Except AuthErr RefreshTokenRow :=
  match store.rows.find? (fun r =>
      decide (r.token = token) &&
        (decide (r.revoked = none) &&
          decide (now - cfg.JWT_REFRESH_TOKEN_EXPIRATION_DELTA ≤ r.issued))) with
  | some r => .ok r
  | none => .error ⟨"Invalid refresh token", "INVALID_TOKEN"⟩

/-- Result value of `SetRefreshToken.mutate`. -/
structure SetRefreshTokenResult where
  success : Bool
  userID : Nat
deriving DecidableEq, Repr

/-- `chowkidar/graphql/schema.py` `SetRefreshToken.mutate`: verifies the
refresh token, refuses with `FORBIDDEN` once more than 2 minutes (120 s) have
elapsed since its issue time, applies the login-permission and
revoke-other-tokens policies (the `import_string` callables are passed in as
predicates), and returns success. -/
def SetRefreshToken_mutate (cfg : Settings) (store : Store) (token : String)
    (now : Nat) (allow_user_to_login : Nat → Bool)
    (revoke_other_on_auth : Nat → Bool)
    (cookies : List (String × JwtString)) :
    Except AuthErr (SetRefreshTokenResult × Store) :=
  match verify_refresh_token cfg store token now with
  | .error e => .error e
  | .ok rt =>
    if 120 < now - rt.issued then
      .error ⟨"This refresh token can no longer be used to set token cookie", "FORBIDDEN"⟩
    else if !(allow_user_to_login rt.user_id) then
      .error ⟨"User not allowed to login", "FORBIDDEN"⟩
    else
      let store' :=
        if revoke_other_on_auth rt.user_id then
          revoke_other_tokens store rt.user_id cookies now
        else store
      .ok ({ success := true, userID := rt.user_id }, store')

/-! ## Dictionary lemmas -/

/-- Unfolding lemma: looking a key up in a non-empty payload. -/
theorem dictLookup_cons (a : String × JValue) (d : Payload) (k : String) :
    dictLookup (a :: d) k = if a.1 == k then some a.2 else dictLookup d k := by
  unfold dictLookup
  cases h : (a.1 == k) <;> simp [List.find?_cons, h]

/-- A key absent from every pair of a payload has no lookup result. -/
theorem dictLookup_eq_none_of_not_any (u : Payload) (k : String)
    (h : u.any (fun q => q.1 == k) = false) : dictLookup u k = none := by
  unfold dictLookup
  have hfind : u.find? (fun p => p.1 == k) = none := by
    apply List.find?_eq_none.mpr
    intro x hx hpx
    have hany : u.any (fun q => q.1 == k) = true := List.any_eq_true.mpr ⟨x, hx, hpx⟩
    rw [hany] at h
    cases h
  rw [hfind]
  rfl

/-- Keys overridden by `dictUpdate` resolve in the updating dict. -/
theorem dictLookup_dictUpdate_mem (d u : Payload) (k : String)
    (h : u.any (fun q => q.1 == k) = true) :
    dictLookup (dictUpdate d u) k = dictLookup u k := by
  unfold dictLookup dictUpdate
  rw [List.find?_append]
  have hnone : (d.filter (fun p => !(u.any (fun q => q.1 == p.1)))).find?
      (fun p => p.1 == k) = none := by
    apply List.find?_eq_none.mpr
    intro x hx hpx
    have hmem := List.mem_filter.mp hx
    have hkey : x.1 = k := by simpa using hpx
    rw [hkey] at hmem
    rw [h] at hmem
    simp at hmem
  rw [hnone]
  rfl

/-- Keys not touched by `dictUpdate` resolve in the original dict. -/
theorem dictLookup_dictUpdate_not_mem (d u : Payload) (k : String)
    (h : u.any (fun q => q.1 == k) = false) :
    dictLookup (dictUpdate d u) k = dictLookup d k := by
  induction d with
  | nil =>
    unfold dictUpdate
    simp only [List.filter_nil, List.nil_append]
    rw [dictLookup_eq_none_of_not_any u k h]
    rfl
  | cons a d ih =>
    cases ha : u.any (fun q => q.1 == a.1) with
    | true =>
      have hk : (a.1 == k) = false := by
        cases hak : (a.1 == k) with
        | false => rfl
        | true =>
          have hak' : a.1 = k := by simpa using hak
          rw [hak'] at ha
          rw [ha] at h
          cases h
      have hstep : dictUpdate (a :: d) u = dictUpdate d u := by
        unfold dictUpdate
        simp [List.filter_cons, ha]
      rw [hstep, ih, dictLookup_cons, hk]
      simp
    | false =>
      have hstep : dictUpdate (a :: d) u = a :: dictUpdate d u := by
        unfold dictUpdate
        simp [List.filter_cons, ha]
      rw [hstep, dictLookup_cons, dictLookup_cons, ih]

/-! ## Claim theorems -/

/-- C3: the active-token lookup `_get_refresh_token_object` returns the stored
row for a secret if and only if that row is unrevoked and its issue time is
within the configured refresh-token TTL of now; revoked rows inside the TTL
window and unrevoked rows with `issued + TTL < now` both come back as not
found.  The hypothesis states that `r` is the unique stored row carrying its
secret. -/
theorem C3_find_active_iff (cfg : Settings) (store : Store) (r : RefreshTokenRow)
    (now : Nat)
    (huniq : store.rows.filter (fun q => decide (q.token = r.token)) = [r]) :
    (_get_refresh_token_object cfg store (some r.token) now).obj = some r ↔
      (r.revoked = none ∧ now ≤ r.issued + cfg.JWT_REFRESH_TOKEN_EXPIRATION_DELTA) := by
  have hq : refresh_query store r.token now cfg.JWT_REFRESH_TOKEN_EXPIRATION_DELTA =
      [r].filter (fun q =>
        decide (q.revoked = none) &&
          decide (now - cfg.JWT_REFRESH_TOKEN_EXPIRATION_DELTA ≤ q.issued)) := by
    unfold refresh_query
    rw [← huniq, List.filter_filter]
    exact List.filter_congr (fun x _ => by rw [Bool.and_comm])
  have hred : _get_refresh_token_object cfg store (some r.token) now =
      (match objects_get (refresh_query store r.token now
          cfg.JWT_REFRESH_TOKEN_EXPIRATION_DELTA) with
        | some x => ⟨some x, false⟩
        | none => ⟨none, true⟩) := rfl
  rw [hred, hq]
  by_cases h1 : r.revoked = none
  · by_cases h2 : now - cfg.JWT_REFRESH_TOKEN_EXPIRATION_DELTA ≤ r.issued
    · have hfil : [r].filter (fun q =>
          decide (q.revoked = none) &&
            decide (now - cfg.JWT_REFRESH_TOKEN_EXPIRATION_DELTA ≤ q.issued)) = [r] := by
        simp [List.filter_cons, h1]
        omega
      rw [hfil]
      constructor
      · intro _
        exact ⟨h1, by omega⟩
      · intro _
        rfl
    · have hfil : [r].filter (fun q =>
          decide (q.revoked = none) &&
            decide (now - cfg.JWT_REFRESH_TOKEN_EXPIRATION_DELTA ≤ q.issued)) = [] := by
        simp [List.filter_cons, h1]
        omega
      rw [hfil]
      constructor
      · intro hx
        have hx' : (none : Option RefreshTokenRow) = some r := hx
        exact Option.noConfusion hx'
      · intro hc
        obtain ⟨-, hc2⟩ := hc
        exact absurd (by omega : now - cfg.JWT_REFRESH_TOKEN_EXPIRATION_DELTA ≤ r.issued) h2
  · have hfil : [r].filter (fun q =>
        decide (q.revoked = none) &&
          decide (now - cfg.JWT_REFRESH_TOKEN_EXPIRATION_DELTA ≤ q.issued)) = [] := by
      simp [List.filter_cons, h1]
    rw [hfil]
    constructor
    · intro hx
      have hx' : (none : Option RefreshTokenRow) = some r := hx
      exact Option.noConfusion hx'
    · intro hc
      exact absurd hc.1 h1

def rowC3w : RefreshTokenRow := ⟨1, 7, "aabb", 100, none⟩

def storeC3w : Store := ⟨[rowC3w]⟩

/-- Witness for C3 at a concrete store and time. -/
theorem C3_find_active_iff_witness :
    (storeC3w.rows.filter (fun q => decide (q.token = rowC3w.token)) = [rowC3w]) ∧
    (_get_refresh_token_object defaultSettings storeC3w (some rowC3w.token) 200).obj =
      some rowC3w :=
  ⟨by decide,
   (C3_find_active_iff defaultSettings storeC3w rowC3w 200 (by decide)).mpr (by decide)⟩

/-- Helper: the misspelled keyword `leeyway` never reaches the declared
`leeway` parameter, which therefore keeps its default of 0. -/
theorem kwargs_get_leeyway (x : Nat) : kwargs_get [("leeyway", x)] "leeway" 0 = 0 := rfl

/-- C5: decoding an encoded claim set round-trips — for every claim set and
symmetric signing key, `decode_payload_from_token` of
`generate_token_from_claims` (read before expiry) succeeds and agrees with
the input claims on every key other than the registered fields `iat`, `exp`
and `iss`. -/
theorem C5_roundtrip (cfg : Settings) (claims : Payload) (delta now now2 : Nat)
    (hpriv : cfg.JWT_PRIVATE_KEY = none) (hpub : cfg.JWT_PUBLIC_KEY = none)
    (hexp : now2 ≤ now + delta) :
    decode_payload_from_token cfg
        (generate_token_from_claims cfg claims delta now).token now2 =
      .ok (generate_token_from_claims cfg claims delta now).payload ∧
    (∀ k, k ≠ "iat" → k ≠ "exp" → k ≠ "iss" →
      dictLookup (generate_token_from_claims cfg claims delta now).payload k =
        dictLookup claims k) := by
  cases hiss : cfg.JWT_ISSUER with
  | none =>
    have hgen : generate_token_from_claims cfg claims delta now =
        { token := encode_payload cfg
            (dictUpdate claims [("iat", .nat now), ("exp", .nat (now + delta))]),
          payload := dictUpdate claims [("iat", .nat now), ("exp", .nat (now + delta))] } := by
      unfold generate_token_from_claims
      rw [hiss]
    rw [hgen]
    constructor
    · have hiat : dictLookup (dictUpdate claims
          [("iat", .nat now), ("exp", .nat (now + delta))]) "iat" = some (.nat now) := by
        rw [dictLookup_dictUpdate_mem _ _ _ (by rfl)]
        rfl
      have hexp2 : dictLookup (dictUpdate claims
          [("iat", .nat now), ("exp", .nat (now + delta))]) "exp" =
            some (.nat (now + delta)) := by
        rw [dictLookup_dictUpdate_mem _ _ _ (by rfl)]
        rfl
      simp only [decode_payload_from_token, decode_token, encode_payload, jwt_decode,
        hpriv, hpub, hiss, Option.getD_none, beq_self_eq_true, if_true,
        kwargs_get_leeyway, hiat, hexp2]
      rw [if_neg (by omega : ¬(now + delta + 0 < now2))]
    · intro k h1 h2 h3
      apply dictLookup_dictUpdate_not_mem
      simp only [List.any_cons, List.any_nil, Bool.or_false, Bool.or_eq_false_iff,
        beq_eq_false_iff_ne]
      exact ⟨Ne.symm h1, Ne.symm h2⟩
  | some iss =>
    have hgen : generate_token_from_claims cfg claims delta now =
        { token := encode_payload cfg (dictUpdate claims
            [("iat", .nat now), ("exp", .nat (now + delta)), ("iss", .str iss)]),
          payload := dictUpdate claims
            [("iat", .nat now), ("exp", .nat (now + delta)), ("iss", .str iss)] } := by
      unfold generate_token_from_claims
      rw [hiss]
    rw [hgen]
    constructor
    · have hiat : dictLookup (dictUpdate claims
          [("iat", .nat now), ("exp", .nat (now + delta)), ("iss", .str iss)]) "iat" =
            some (.nat now) := by
        rw [dictLookup_dictUpdate_mem _ _ _ (by rfl)]
        rfl
      have hexp2 : dictLookup (dictUpdate claims
          [("iat", .nat now), ("exp", .nat (now + delta)), ("iss", .str iss)]) "exp" =
            some (.nat (now + delta)) := by
        rw [dictLookup_dictUpdate_mem _ _ _ (by rfl)]
        rfl
      have hiss2 : dictLookup (dictUpdate claims
          [("iat", .nat now), ("exp", .nat (now + delta)), ("iss", .str iss)]) "iss" =
            some (.str iss) := by
        rw [dictLookup_dictUpdate_mem _ _ _ (by rfl)]
        rfl
      simp only [decode_payload_from_token, decode_token, encode_payload, jwt_decode,
        hpriv, hpub, hiss, Option.getD_none, beq_self_eq_true, if_true,
        kwargs_get_leeyway, hiat, hexp2, hiss2]
      rw [if_neg (by omega : ¬(now + delta + 0 < now2))]
    · intro k h1 h2 h3
      apply dictLookup_dictUpdate_not_mem
      simp only [List.any_cons, List.any_nil, Bool.or_false, Bool.or_eq_false_iff,
        beq_eq_false_iff_ne]
      exact ⟨Ne.symm h1, Ne.symm h2, Ne.symm h3⟩

/-- Witness for C5 at a concrete claim set, key and time. -/
theorem C5_roundtrip_witness :
    defaultSettings.JWT_PRIVATE_KEY = none ∧ defaultSettings.JWT_PUBLIC_KEY = none ∧
    150 ≤ 100 + 60 ∧
    decode_payload_from_token defaultSettings
        (generate_token_from_claims defaultSettings [("userID", .nat 5)] 60 100).token 150 =
      .ok (generate_token_from_claims defaultSettings [("userID", .nat 5)] 60 100).payload ∧
    dictLookup (generate_token_from_claims defaultSettings
        [("userID", .nat 5)] 60 100).payload "userID" =
      dictLookup [("userID", .nat 5)] "userID" :=
  ⟨rfl, rfl, by omega,
   (C5_roundtrip defaultSettings [("userID", .nat 5)] 60 100 150 rfl rfl (by omega)).1,
   (C5_roundtrip defaultSettings [("userID", .nat 5)] 60 100 150 rfl rfl (by omega)).2
     "userID" (by decide) (by decide) (by decide)⟩

/-- C9: a request whose access-token cookie decodes successfully resolves its
`userID` from the token claims with zero refresh-token store reads and zero
writes (not even the last-login touch); and any request execution that does
read the store is one where the access-token cookie failed to decode and a
refresh-token cookie payload was present (the fallback path). -/
theorem C9_fast_path_no_store_access (cfg : Settings) (store : Store) (req : Request)
    (now : Nat) (p : Payload)
    (hacc : _get_token_payload_from_cookie cfg req cfg.JWT_ACCESS_TOKEN_COOKIE_NAME now =
      some p) :
    ((on_request_start cfg store req now).1.userID = payload_userID p ∧
      (on_request_start cfg store req now).2.refresh_store_reads = 0 ∧
      (on_request_start cfg store req now).2.user_saves = 0) ∧
    (∀ store2 req2 now2,
      (on_request_start cfg store2 req2 now2).2.refresh_store_reads ≠ 0 →
        _get_token_payload_from_cookie cfg req2 cfg.JWT_ACCESS_TOKEN_COOKIE_NAME now2 =
          none ∧
        (_get_token_payload_from_cookie cfg req2
          cfg.JWT_REFRESH_TOKEN_COOKIE_NAME now2).isSome = true) := by
  constructor
  · simp [on_request_start, hacc]
  · intro store2 req2 now2 hne
    cases h1 : _get_token_payload_from_cookie cfg req2 cfg.JWT_ACCESS_TOKEN_COOKIE_NAME now2 with
    | some q =>
      exfalso
      simp [on_request_start, h1] at hne
    | none =>
      cases h2 : _get_token_payload_from_cookie cfg req2
          cfg.JWT_REFRESH_TOKEN_COOKIE_NAME now2 with
      | none =>
        exfalso
        simp [on_request_start, h1, h2] at hne
      | some q =>
        exact ⟨rfl, rfl⟩

def payloadC9w : Payload :=
  [("userID", .nat 7), ("origIat", .nat 900), ("iat", .nat 100), ("exp", .nat 2000)]

def reqC9w : Request :=
  ⟨[("JWT_ACCESS_TOKEN", .jwt payloadC9w "django-site-secret")]⟩

/-- Witness for C9 at a concrete request carrying a valid access token. -/
theorem C9_fast_path_no_store_access_witness :
    _get_token_payload_from_cookie defaultSettings reqC9w
        defaultSettings.JWT_ACCESS_TOKEN_COOKIE_NAME 1000 = some payloadC9w ∧
    (on_request_start defaultSettings ⟨[]⟩ reqC9w 1000).1.userID =
      payload_userID payloadC9w ∧
    (on_request_start defaultSettings ⟨[]⟩ reqC9w 1000).2.refresh_store_reads = 0 :=
  ⟨by decide,
   (C9_fast_path_no_store_access defaultSettings ⟨[]⟩ reqC9w 1000 payloadC9w
     (by decide)).1.1,
   (C9_fast_path_no_store_access defaultSettings ⟨[]⟩ reqC9w 1000 payloadC9w
     (by decide)).1.2.1⟩

/-- C8: exchanging a refresh token through `SetRefreshToken` is refused with a
`FORBIDDEN` error whenever more than 120 seconds have elapsed since the
token's issue time, and succeeds for a token inside the window when the user
is permitted to log in. -/
theorem C8_set_refresh_token_window (cfg : Settings) (store : Store) (token : String)
    (now : Nat) (allow revokeP : Nat → Bool) (cookies : List (String × JwtString))
    (rt : RefreshTokenRow)
    (hv : verify_refresh_token cfg store token now = .ok rt) :
    (120 < now - rt.issued →
      SetRefreshToken_mutate cfg store token now allow revokeP cookies =
        .error ⟨"This refresh token can no longer be used to set token cookie",
                "FORBIDDEN"⟩) ∧
    (now - rt.issued ≤ 120 → allow rt.user_id = true →
      ∃ store2, SetRefreshToken_mutate cfg store token now allow revokeP cookies =
        .ok ({ success := true, userID := rt.user_id }, store2)) := by
  have hred : SetRefreshToken_mutate cfg store token now allow revokeP cookies =
      (if 120 < now - rt.issued then
        .error ⟨"This refresh token can no longer be used to set token cookie",
                "FORBIDDEN"⟩
      else if (!allow rt.user_id) = true then
        .error ⟨"User not allowed to login", "FORBIDDEN"⟩
      else
        .ok ({ success := true, userID := rt.user_id },
          if revokeP rt.user_id = true then
            revoke_other_tokens store rt.user_id cookies now
          else store)) := by
    unfold SetRefreshToken_mutate
    rw [hv]
  constructor
  · intro h
    rw [hred, if_pos h]
  · intro h1 h2
    rw [hred, if_neg (by omega : ¬(120 < now - rt.issued)), h2]
    exact ⟨_, rfl⟩

def rowC8w : RefreshTokenRow := ⟨1, 7, "ee00", 100, none⟩

def storeC8w : Store := ⟨[rowC8w]⟩

/-- Witness for C8 at a concrete store: the exchange succeeds 50 seconds after
issue. -/
theorem C8_set_refresh_token_window_witness :
    verify_refresh_token defaultSettings storeC8w "ee00" 150 = .ok rowC8w ∧
    150 - rowC8w.issued ≤ 120 ∧
    (∃ store2, SetRefreshToken_mutate defaultSettings storeC8w "ee00" 150
        (fun _ => true) (fun _ => false) [] =
      .ok ({ success := true, userID := rowC8w.user_id }, store2)) :=
  ⟨rfl, by decide,
   (C8_set_refresh_token_window defaultSettings storeC8w "ee00" 150
     (fun _ => true) (fun _ => false) [] rowC8w rfl).2 (by decide) rfl⟩

def rowC1 : RefreshTokenRow := ⟨1, 7, "aabb", 900, none⟩

def storeC1 : Store := ⟨[rowC1]⟩

/-- An access-token cookie already expired at time 1000. -/
def accessTokC1 : JwtString :=
  .jwt [("userID", .nat 7), ("origIat", .nat 900), ("iat", .nat 100), ("exp", .nat 160)]
    "django-site-secret"

/-- A refresh-token cookie wrapping the secret of `rowC1`, valid at time 1000. -/
def refreshTokC1 : JwtString :=
  .jwt [("refreshToken", .str "aabb"), ("iat", .nat 900), ("exp", .nat 605700)]
    "django-site-secret"

def reqC1 : Request :=
  ⟨[("JWT_ACCESS_TOKEN", accessTokC1), ("JWT_REFRESH_TOKEN", refreshTokC1)]⟩

/-- C1: on a request with an expired access-token cookie and a valid
refresh-token cookie, resolution does set `userID` to the token row's owner,
keeps the same refresh secret (no rotation) and mints a new access token — but
the response-finalization pass sets zero cookies, not exactly one new
access-token cookie: `resolve` publishes the token under the attribute
`REFRESHED_ACCESS_TOKEN` while `finish_response` only reads `NEW_JWT_TOKEN`. -/
theorem C1_renewal_sets_no_access_cookie :
    (on_request_start defaultSettings storeC1 reqC1 1000).1.userID = some 7 ∧
    (on_request_start defaultSettings storeC1 reqC1 1000).1.new_JWT_access_token.isSome =
      true ∧
    (on_request_start defaultSettings storeC1 reqC1 1000).1.refreshToken = some "aabb" ∧
    (extension_resolve (on_request_start defaultSettings storeC1 reqC1 1000).1
      initAttrs).REFRESHED_ACCESS_TOKEN.isSome = true ∧
    finish_response defaultSettings
      (extension_resolve (on_request_start defaultSettings storeC1 reqC1 1000).1 initAttrs)
      [] 1000 = [] := by
  decide

def storeC2 : Store := ⟨[⟨1, 7, "cc", 900, none⟩]⟩

/-- C2: logout on a session holding active refresh token `cc` does set the
row's revoked timestamp to now, and flags `PERFORM_LOGOUT` — but the
response-finalization pass produces zero cookie-clearing actions, not one
action clearing both cookies: `finish_response` only reads the never-set
attributes `REMOVE_JWT_TOKEN` and `REMOVE_REFRESH_TOKEN`. -/
theorem C2_logout_revokes_but_clears_no_cookies :
    (revoke_tokens_on_logout storeC2 (some 7) (some "cc") true initAttrs 1000).1.rows =
      [⟨1, 7, "cc", 900, some 1000⟩] ∧
    (revoke_tokens_on_logout storeC2 (some 7) (some "cc") true initAttrs 1000).2.PERFORM_LOGOUT =
      true ∧
    finish_response defaultSettings
      (revoke_tokens_on_logout storeC2 (some 7) (some "cc") true initAttrs 1000).2
      [] 1000 = [] := by
  decide

def cfgLeeway10 : Settings := { defaultSettings with JWT_LEEWAY := 10 }

/-- A token whose `exp` (95) lies within the configured 10-second leeway
before now (100). -/
def tokC4 : JwtString := .jwt [("iat", .nat 0), ("exp", .nat 95)] "django-site-secret"

/-- C4: with a configured leeway of 10 seconds, a token whose `exp` lies 5
seconds in the past — inside the leeway window, so the claim requires a
successful decode — is instead rejected as expired, because `decode_token`
spells the keyword argument `leeyway` and `PyJWT` therefore validates with its
default leeway of 0. -/
theorem C4_leeway_ignored :
    100 ≤ 95 + cfgLeeway10.JWT_LEEWAY ∧
    decode_payload_from_token cfgLeeway10 tokC4 100 =
      .error ⟨"JWT Token expired", "EXPIRED_TOKEN"⟩ := by
  constructor
  · decide
  · rfl

def storeC6 : Store :=
  ⟨[⟨1, 7, "aa", 900, none⟩, ⟨2, 7, "bb", 900, none⟩, ⟨3, 7, "cc", 900, none⟩]⟩

/-- The caller's refresh-token cookie, wrapping secret `cc`, exactly as
`finish_response` writes it. -/
def refreshTokC6 : JwtString :=
  .jwt [("refreshToken", .str "cc"), ("iat", .nat 900), ("exp", .nat 605700)]
    "django-site-secret"

/-- C6: `revoke_other_tokens` for user 7, whose current session's cookie wraps
secret `cc`, revokes all three of the user's active tokens — including the
current one — because the ORM exclusion compares stored raw secrets against
the JWT wire string of the cookie, which never matches a stored secret.  The
final conjunct shows the cookie does decode to the current secret `cc`. -/
theorem C6_current_token_also_revoked :
    (revoke_other_tokens storeC6 7 [("JWT_REFRESH_TOKEN", refreshTokC6)] 1000).rows =
      [⟨1, 7, "aa", 900, some 1000⟩, ⟨2, 7, "bb", 900, some 1000⟩,
       ⟨3, 7, "cc", 900, some 1000⟩] ∧
    (match decode_payload_from_token defaultSettings refreshTokC6 1000 with
      | .ok p => payload_refreshToken p
      | .error _ => none) = some "cc" := by
  decide

def storeC7 : Store := ⟨[⟨1, 7, "dd", 400, some 500⟩]⟩

/-- C7 counterexample: a row already revoked at time 500 is not immutable — a
second logout carrying the same secret (possible while an unexpired access
token is still held) overwrites its revoked timestamp with the new time
1000. -/
theorem C7_revoked_row_overwritten :
    storeC7.rows = [⟨1, 7, "dd", 400, some 500⟩] ∧
    (revoke_tokens_on_logout storeC7 (some 7) (some "dd") true initAttrs 1000).1.rows =
      [⟨1, 7, "dd", 400, some 1000⟩] ∧
    some (500 : Nat) ≠ some (1000 : Nat) := by
  decide

/-- C7 (amended): logout revocation sets `revoked := now` on the matching
`(token, user)` row regardless of its prior revocation state — so an
already-revoked row's timestamp is overwritten, not preserved — while leaving
every other field unchanged; and `revoke_other_tokens` never touches an
already-revoked row. -/
theorem C7_amended_revocation_behaviour (r : RefreshTokenRow) (uid : Nat)
    (secret : String) (now uid2 : Nat) (cookies : List (String × JwtString))
    (attrs : RequestAttrs) :
    ((revoke_tokens_on_logout ⟨[r]⟩ (some uid) (some secret) true attrs now).1.rows =
      [if uid ≠ 0 ∧ secret ≠ "" ∧ r.token = secret ∧ r.user_id = uid
        then { r with revoked := some now } else r]) ∧
    (r.revoked ≠ none → (revoke_other_tokens ⟨[r]⟩ uid2 cookies now).rows = [r]) := by
  constructor
  · by_cases hg : uid ≠ 0 ∧ secret ≠ ""
    · by_cases hm : r.token = secret ∧ r.user_id = uid
      · have h1 : (revoke_tokens_on_logout ⟨[r]⟩ (some uid) (some secret) true attrs
            now).1.rows = [{ r with revoked := some now }] := by
          unfold revoke_tokens_on_logout
          simp [hg, hm.1, hm.2]
        rw [h1, if_pos ⟨hg.1, hg.2, hm.1, hm.2⟩]
      · have h1 : (revoke_tokens_on_logout ⟨[r]⟩ (some uid) (some secret) true attrs
            now).1.rows = [r] := by
          unfold revoke_tokens_on_logout
          simp [hg, hm]
        rw [h1, if_neg (fun hh => hm ⟨hh.2.2.1, hh.2.2.2⟩)]
    · have h1 : (revoke_tokens_on_logout ⟨[r]⟩ (some uid) (some secret) true attrs
          now).1.rows = [r] := by
        unfold revoke_tokens_on_logout
        simp [hg]
      rw [h1, if_neg (fun hh => hg ⟨hh.1, hh.2.1⟩)]
  · intro hrev
    unfold revoke_other_tokens
    simp [hrev]

/-- Witness for the amended C7 at a concrete already-revoked row. -/
theorem C7_amended_revocation_behaviour_witness :
    ((revoke_tokens_on_logout ⟨[⟨1, 7, "dd", 400, some 500⟩]⟩ (some 9) (some "zz") true
        initAttrs 1000).1.rows = [⟨1, 7, "dd", 400, some 500⟩]) ∧
    (some (500 : Nat) ≠ none ∧
      (revoke_other_tokens ⟨[⟨1, 7, "dd", 400, some 500⟩]⟩ 7 [] 1000).rows =
        [⟨1, 7, "dd", 400, some 500⟩]) :=
  ⟨by
    have h := (C7_amended_revocation_behaviour ⟨1, 7, "dd", 400, some 500⟩ 9 "zz" 1000 7 []
      initAttrs).1
    simpa using h,
   by
    refine ⟨by decide, ?_⟩
    exact (C7_amended_revocation_behaviour ⟨1, 7, "dd", 400, some 500⟩ 9 "zz" 1000 7 []
      initAttrs).2 (by decide)⟩

def bytesC10 : List Nat := List.replicate 20 0

def storeC10 : Store := ⟨[⟨1, 9, generate_token bytesC10, 100, none⟩]⟩

/-- C10 counterexample: when the single random draw collides with an existing
active secret, creation surfaces an integrity error instead of retrying —
`save` calls `generate_token` exactly once and performs no collision
retry loop. -/
theorem C10_collision_not_retried :
    generate_refresh_token defaultSettings storeC10 7 bytesC10 200 2 =
      .error "IntegrityError" := by
  rfl

/-- C10 (amended): creation draws one random secret of `2 * n` hex characters
for `n` random bytes (with the default `JWT_REFRESH_TOKEN_N_BYTES = 20`); a
single generation attempt is made, such that a collision with an existing
`(token, revoked)` pair surfaces as an integrity error with no retry, and
absent a collision the new active row carrying that secret is persisted. -/
theorem C10_single_generation (cfg : Settings) (store : Store) (uid : Nat)
    (bs : List Nat) (now newId : Nat) :
    (generate_token bs).length = 2 * bs.length ∧
    defaultSettings.JWT_REFRESH_TOKEN_N_BYTES = 20 ∧
    (store.rows.any (fun r =>
        decide (r.token = generate_token bs) && decide (r.revoked = (none : Option Nat))) =
          true →
      generate_refresh_token cfg store uid bs now newId = .error "IntegrityError") ∧
    (store.rows.any (fun r =>
        decide (r.token = generate_token bs) && decide (r.revoked = (none : Option Nat))) =
          false →
      generate_refresh_token cfg store uid bs now newId =
        .ok (⟨store.rows ++ [⟨newId, uid, generate_token bs, now, none⟩]⟩,
             ⟨newId, uid, generate_token bs, now, none⟩)) := by
  refine ⟨?_, rfl, ?_, ?_⟩
  · induction bs with
    | nil => rfl
    | cons b bs ih =>
      show (hexByte b ++ generate_token bs).length = 2 * (bs.length + 1)
      rw [String.length_append, ih]
      have hb : (hexByte b).length = 2 := rfl
      rw [hb]
      omega
  · intro hcol
    simp [generate_refresh_token, save, hcol]
  · intro hcol
    simp [generate_refresh_token, save, hcol]

/-- Witness for the amended C10: a store with no colliding secret accepts the
new row. -/
theorem C10_single_generation_witness :
    ((⟨[]⟩ : Store).rows.any (fun r =>
      decide (r.token = generate_token bytesC10) &&
        decide (r.revoked = (none : Option Nat))) = false) ∧
    generate_refresh_token defaultSettings ⟨[]⟩ 7 bytesC10 200 2 =
      .ok (⟨[⟨2, 7, generate_token bytesC10, 200, none⟩]⟩,
           ⟨2, 7, generate_token bytesC10, 200, none⟩) :=
  ⟨rfl,
   (C10_single_generation defaultSettings ⟨[]⟩ 7 bytesC10 200 2).2.2.2 rfl⟩

end Chowkidar
